import Mathlib

/-!
Shallow embedding of the blink(1) Go control library's device command
protocol: the byte codec (fade-time encoding, gamma table, bool/byte
flags), the fixed 9-byte command buffer builders, the transport session
over an optional HID handle, and the controller's pattern/tickle
operations.  Machine integers (Go `byte`, `uint`, `uint8`, `uint16`) are
modelled as `Nat` with explicit `% 256` (or `&&& 0xff`) exactly where the
Go source performs a narrowing conversion.  Fallible Go functions return
`Except`; Go methods that can additionally crash at runtime (nil handle
dereference, double close of a channel) return an `Outcome` which has an
explicit `panic` case.
-/

namespace Blink1

/-! ## Constants (helper.go) -/

def b1VendorID : Nat := 0x27B8

def b1ProductID : Nat := 0x01ED

/-- Command buffer size for mk1 and mk2 devices: 9 bytes. -/
def cmdBufSize : Nat := 9

/-- Report ID, byte 0 of every command buffer. -/
def reportID : Nat := 0x01

/-- Max pattern RAM positions for generation 1 (mk1). -/
def maxPattern : Nat := 12

/-- Max pattern RAM positions for generation 2 and later (mk2+). -/
def maxPattern2 : Nat := 32

/-- `maxFadeMsec = uint(0xffff * 10)`: 655350 ms. -/
def maxFadeMsec : Nat := 0xffff * 10

/-- `maxRepeat = uint(0xff)`: 255. -/
def maxRepeat : Nat := 0xff

/-- `getMaxPattern` returns max pattern number for the generation
(`gen` is a Go `uint16`). -/
def getMaxPattern (gen : Nat) : Nat :=
  if gen ≥ 2 then maxPattern2 else maxPattern

/-! ## Byte codec (helper.go) -/

/-- `convDurMsToFadeMs` converts milliseconds to the two-byte big-endian
fade value: clamp to `maxFadeMsec`, divide by 10, split into
`(uint8(d >> 8), uint8(d & 0xff))`.  The Go `uint8(·)` narrowing
conversions are modelled by `% 256`. -/
def convDurMsToFadeMs (durMs : Nat) : Nat × Nat :=
  let d := if durMs > maxFadeMsec then maxFadeMsec else durMs
  let q := d / 10
  ((q >>> 8) % 256, (q &&& 0xff) % 256)

/-- `convFadeMsToDurMs` converts the big-endian fade byte pair back to
milliseconds: `((uint(th) << 8) | uint(tl)) * 10`. -/
def convFadeMsToDurMs (th tl : Nat) : Nat :=
  ((th <<< 8) ||| tl) * 10

/-- `convBoolToByte` converts bool to byte: true ↦ 1, false ↦ 0. -/
def convBoolToByte (b : Bool) : Nat :=
  if b then 1 else 0

/-- `convByteToBool` converts byte to bool: `b != 0`. -/
def convByteToBool (b : Nat) : Bool :=
  b != 0

/-! ## LED index (schema.go) -/

abbrev LEDIndex := Nat

/-- `LEDAll` addresses all LEDs. -/
def LEDAll : LEDIndex := 0

/-- `LED1` addresses the first LED. -/
def LED1 : LEDIndex := 1

/-- `LED2` addresses the second LED. -/
def LED2 : LEDIndex := 2

/-- `LEDIndex.ToByte` converts an LED index (a Go `byte`) to the wire
byte: out-of-range values collapse to `LEDAll`.  The Go guard is
`l < LEDAll || l > LED2`; on the unsigned byte type `l < LEDAll` (i.e.
`l < 0`) is always false, kept here verbatim. -/
def LEDIndex.ToByte (l : LEDIndex) : Nat :=
  if l < LEDAll ∨ l > LED2 then LEDAll else l

/-! ## Gamma table (helper.go, `gammaE`) -/

/-- The 256-entry gamma correction lookup table `gammaE`, reproduced
byte-for-byte from the source. -/
def gammaE : List Nat :=
  [0, 0, 0, 0, 0, 0, 0, 0, 0, 0, 0, 0, 0, 0, 0, 0,
   0, 0, 0, 0, 0, 0, 1, 1, 1, 1, 1, 1, 1, 2, 2, 2,
   2, 2, 2, 3, 3, 3, 3, 3, 4, 4, 4, 4, 5, 5, 5, 5,
   6, 6, 6, 7, 7, 7, 8, 8, 8, 9, 9, 9, 10, 10, 11, 11,
   11, 12, 12, 13, 13, 13, 14, 14, 15, 15, 16, 16, 17, 17, 18, 18,
   19, 19, 20, 21, 21, 22, 22, 23, 23, 24, 25, 25, 26, 27, 27, 28,
   29, 29, 30, 31, 31, 32, 33, 34, 34, 35, 36, 37, 37, 38, 39, 40,
   40, 41, 42, 43, 44, 45, 46, 46, 47, 48, 49, 50, 51, 52, 53, 54,
   55, 56, 57, 58, 59, 60, 61, 62, 63, 64, 65, 66, 67, 68, 69, 70,
   71, 72, 73, 74, 76, 77, 78, 79, 80, 81, 83, 84, 85, 86, 88, 89,
   90, 91, 93, 94, 95, 96, 98, 99, 100, 102, 103, 104, 106, 107, 109, 110,
   111, 113, 114, 116, 117, 119, 120, 121, 123, 124, 126, 128, 129, 131, 132, 134,
   135, 137, 138, 140, 142, 143, 145, 146, 148, 150, 151, 153, 155, 157, 158, 160,
   162, 163, 165, 167, 169, 170, 172, 174, 176, 178, 179, 181, 183, 185, 187, 189,
   191, 193, 194, 196, 198, 200, 202, 204, 206, 208, 210, 212, 214, 216, 218, 220,
   222, 224, 227, 229, 231, 233, 235, 237, 239, 241, 244, 246, 248, 250, 252, 255]

/-- Lookup `gammaE[x]` for one 8-bit channel (in Go the index is a
`uint8`, so it is always in range; out-of-range `Nat` defaults to 0). -/
def degamma (x : Nat) : Nat :=
  gammaE.getD x 0

/-- `degammaRGB` applies the gamma table to the three channels. -/
def degammaRGB (r g b : Nat) : Nat × Nat × Nat :=
  (degamma r, degamma g, degamma b)

/-! ## Colors and light states (schema.go, helper.go)

`color.Color` is a Go interface whose only operation is
`RGBA() (r, g, b, a uint32)` returning 16-bit-range components; a color
value is therefore modelled by that quadruple. -/

structure GoColor where
  r : Nat
  g : Nat
  b : Nat
  a : Nat
deriving DecidableEq, Repr

/-- `convColorToRGB` converts a `color.Color` to 8-bit RGB values:
`uint8(rr >> 8)` per channel (`% 256` models the `uint8` cast). -/
def convColorToRGB (c : GoColor) : Nat × Nat × Nat :=
  ((c.r >>> 8) % 256, (c.g >>> 8) % 256, (c.b >>> 8) % 256)

/-- `convRGBToColor` builds `color.RGBA{R: r, G: g, B: b, A: 0xff}`;
its `RGBA()` method yields `c | c << 8 = c * 0x101` per channel. -/
def convRGBToColor (r g b : Nat) : GoColor :=
  ⟨r * 0x101, g * 0x101, b * 0x101, 0xffff⟩

/-- `DeviceLightState`: low-level light state (8-bit RGB, LED index,
fade time in milliseconds). -/
structure DeviceLightState where
  R : Nat
  G : Nat
  B : Nat
  LED : LEDIndex
  FadeTimeMsec : Nat
deriving DecidableEq, Repr

/-- `LightState`: high-level light state.  Go stores the fade time as a
`time.Duration`; the code only ever consumes `FadeTime.Milliseconds()`,
so the duration is modelled directly in milliseconds. -/
structure LightState where
  color : GoColor
  led : LEDIndex
  fadeTimeMs : Nat
deriving DecidableEq, Repr

/-- `convLightState` converts `LightState` to `DeviceLightState`. -/
def convLightState (st : LightState) : DeviceLightState :=
  let rgb := convColorToRGB st.color
  { R := rgb.1, G := rgb.2.1, B := rgb.2.2, LED := st.led,
    FadeTimeMsec := st.fadeTimeMs }

/-- `convDeviceLightState` converts `DeviceLightState` to `LightState`
(no gamma is involved). -/
def convDeviceLightState (st : DeviceLightState) : LightState :=
  { color := convRGBToColor st.R st.G st.B, led := st.LED,
    fadeTimeMs := st.FadeTimeMsec }

/-- `Pattern`: a playable sequence of light states. -/
structure Pattern where
  StartPosition : Nat
  EndPosition : Nat
  RepeatTimes : Nat
  States : List LightState

/-! ## Transport session and Device handle

`hid.Device` is the external HID handle interface; only
`WriteFeature` and `ReadFeature` are consumed by this layer.  A `read`
overwrites the caller's buffer with the response, modelled by returning
the new buffer contents. -/

structure Transport where
  writeFeature : List Nat → Except String Unit
  readFeature : List Nat → Except String (List Nat)

/-- Result of a Go method call: normal return value, returned `error`,
or a runtime panic (crash). -/
inductive Outcome (α : Type) where
  | ok : α → Outcome α
  | err : String → Outcome α
  | panic : Outcome α

/-- `Device`: product name, generation (`uint16`), serial number, and
the HID handle; after `Close` the handle field is the nil interface,
modelled as `none`. -/
structure Device where
  pn : String
  gen : Nat
  sn : String
  dev : Option Transport

/-- `Device.Close` closes the handle and sets `b1.dev = nil`.  (The
call to the handle's own `Close` only affects the external HID state.) -/
def Device.close (b1 : Device) : Device :=
  { b1 with dev := none }

/-- `Device.write` sends a feature report.  When `b1.dev` is the nil
interface (after `Close`), the Go call `b1.dev.WriteFeature(buf)`
panics with a nil pointer dereference — there is no nil check —
modelled by the `panic` outcome. -/
def Device.write (b1 : Device) (buf : List Nat) : Outcome Unit :=
  match b1.dev with
  | none => .panic
  | some d =>
    match d.writeFeature buf with
    | .ok _ => .ok ()
    | .error e => .err ("b1: write fail: " ++ e)

/-- `Device.doubleWrite` sends two feature reports under one lock
acquisition; same nil-handle panic as `Device.write`. -/
def Device.doubleWrite (b1 : Device) (buf1 buf2 : List Nat) : Outcome Unit :=
  match b1.dev with
  | none => .panic
  | some d =>
    match d.writeFeature buf1 with
    | .error e => .err ("b1: write buf1 fail: " ++ e)
    | .ok _ =>
      match d.writeFeature buf2 with
      | .error e => .err ("b1: write buf2 fail: " ++ e)
      | .ok _ => .ok ()

/-- `Device.read` sends the report (write error discarded by `_ =`),
then reads the response back into the buffer; nil handle panics. -/
def Device.read (b1 : Device) (buf : List Nat) : Outcome (List Nat) :=
  match b1.dev with
  | none => .panic
  | some d =>
    match d.readFeature buf with
    | .error e => .err ("b1: read fail: " ++ e)
    | .ok out => .ok out

/-- `Device.delayRead` works like `read` with a sleep between the write
and the read phases (the sleep has no effect in this pure model); nil
handle panics. -/
def Device.delayRead (b1 : Device) (buf : List Nat) (delayMs : Nat) : Outcome (List Nat) :=
  match b1.dev with
  | none => .panic
  | some d =>
    match d.readFeature buf with
    | .error e => .err ("b1: read fail: " ++ e)
    | .ok out => .ok out

/-! ## Command buffer builders (device_cmd.go)

Each builder produces the exact 9-byte buffer handed to the transport.
Opcode characters are written as Lean character literals; Go `byte(x)`
narrowing casts are modelled by `% 256`. -/

/-- Buffer of `FadeToRGB`: `{reportID, 'c', r, g, b, th, tl, led, 0}`. -/
def fadeToRGBBuf (r g b fadeMsec : Nat) (ledN : LEDIndex) : List Nat :=
  let p := convDurMsToFadeMs fadeMsec
  [reportID, 'c'.toNat, r, g, b, p.1, p.2, LEDIndex.ToByte ledN, 0]

/-- Buffer of `SetRGBNow`: `{reportID, 'n', r, g, b, 0, 0, led, 0}` —
no fade field. -/
def setRGBNowBuf (r g b : Nat) (ledN : LEDIndex) : List Nat :=
  [reportID, 'n'.toNat, r, g, b, 0, 0, LEDIndex.ToByte ledN, 0]

/-- `checkPatternPos` rejects positions outside `[0, patt_max)`. -/
def Device.checkPatternPos (gen pos : Nat) : Except String Unit :=
  if pos ≥ getMaxPattern gen then
    .error "b1: pattern position is out of range"
  else .ok ()

/-- `Device.PlayLoop`'s validation and buffer construction: validates
both positions, resolves the `posEnd == 0` sentinel to `patt_max - 1`
(inclusive end), and encodes
`{reportID, 'p', playFlag, posStart, posEnd, times & 0xff, 0, 0, 0}`.
The repeat count is NOT validated: `byte(times & 0xff)` keeps only the
low 8 bits. -/
def Device.playLoopBuf (gen : Nat) (play : Bool) (posStart posEnd times : Nat) :
    Except String (List Nat) :=
  match Device.checkPatternPos gen posStart with
  | .error e => .error e
  | .ok _ =>
    match Device.checkPatternPos gen posEnd with
    | .error e => .error e
    | .ok _ =>
      let posEnd := if posEnd = 0 then getMaxPattern gen - 1 else posEnd
      .ok [reportID, 'p'.toNat, convBoolToByte play, posStart % 256, posEnd % 256,
        (times &&& 0xff) % 256, 0, 0, 0]

/-- `Device.SetTickleMode`'s validation and buffer construction:
validates both positions, resolves the `posEnd == 0` sentinel to
`patt_max` and otherwise increments `posEnd` by one (the firmware's end
is exclusive here, unlike the play-loop command), and encodes
`{reportID, 'D', playFlag, th, tl, keepFlag, posStart, posEnd, 0}`. -/
def Device.setTickleModeBuf (gen : Nat) (play keep : Bool) (posStart posEnd timeoutMsec : Nat) :
    Except String (List Nat) :=
  match Device.checkPatternPos gen posStart with
  | .error e => .error e
  | .ok _ =>
    match Device.checkPatternPos gen posEnd with
    | .error e => .error e
    | .ok _ =>
      let posEnd := if posEnd = 0 then getMaxPattern gen else posEnd + 1
      let p := convDurMsToFadeMs timeoutMsec
      .ok [reportID, 'D'.toNat, convBoolToByte play, p.1, p.2, convBoolToByte keep,
        posStart % 256, posEnd % 256, 0]

/-- Buffer of `SavePattern`:
`{reportID, 'W', 0xBE, 0xEF, 0xCA, 0xFE, 0, 0, 0}`. -/
def savePatternBuf : List Nat :=
  [reportID, 'W'.toNat, 0xBE, 0xEF, 0xCA, 0xFE, 0, 0, 0]

/-! ## Device commands over the transport (device_cmd.go) -/

/-- `Device.FadeToRGB` builds the fade buffer and writes it. -/
def Device.fadeToRGB (b1 : Device) (r g b fadeMsec : Nat) (ledN : LEDIndex) : Outcome Unit :=
  b1.write (fadeToRGBBuf r g b fadeMsec ledN)

/-- `Device.SetRGBNow` builds the immediate-set buffer and writes it. -/
def Device.setRGBNow (b1 : Device) (r g b : Nat) (ledN : LEDIndex) : Outcome Unit :=
  b1.write (setRGBNowBuf r g b ledN)

/-- `Device.SavePattern`: the transport write's error is discarded
(`_ = b1.write(buf)`) and `nil` is returned.  A runtime panic (closed
handle) still propagates — discarding an error return does not swallow
panics in Go. -/
def Device.savePattern (b1 : Device) : Outcome Unit :=
  match b1.write savePatternBuf with
  | .panic => .panic
  | _ => .ok ()

/-- Parse step of `Device.GetVersion`:
`ver = int((buf[3]-'0')*100) + int(buf[4]-'0')`.  Both the subtraction
`buf[3]-'0'` and the multiplication `(...)*100` happen on Go `byte`
(uint8) values, so each wraps modulo 256 before the widening `int`
conversions; the final sum of two values below 256 is non-negative,
hence a `Nat`. -/
def getVersionParse (b3 b4 : Nat) : Nat :=
  ((b3 + 256 - '0'.toNat % 256) % 256 * 100) % 256 + (b4 + 256 - '0'.toNat % 256) % 256

/-- `Device.GetVersion` sends `{reportID, 'v', 0, ...}` and parses
bytes 3 and 4 of the response. -/
def Device.getVersion (b1 : Device) : Outcome Nat :=
  match b1.read [reportID, 'v'.toNat, 0, 0, 0, 0, 0, 0, 0] with
  | .panic => .panic
  | .err e => .err e
  | .ok resp => .ok (getVersionParse (resp.getD 3 0) (resp.getD 4 0))

/-- Parse step of `Device.ReadRGB`: `r, g, b = buf[2], buf[3], buf[4]`
— the response bytes are returned unmodified (no gamma). -/
def readRGBParse (resp : List Nat) : Nat × Nat × Nat :=
  (resp.getD 2 0, resp.getD 3 0, resp.getD 4 0)

/-- Parse step of `Device.ReadPatternLine`: RGB from bytes 2-4
unmodified (no gamma), fade time decoded from bytes 5-6, LED from
byte 7. -/
def readPatternLineParse (resp : List Nat) : DeviceLightState :=
  { R := resp.getD 2 0, G := resp.getD 3 0, B := resp.getD 4 0,
    LED := resp.getD 7 0,
    FadeTimeMsec := convFadeMsToDurMs (resp.getD 5 0) (resp.getD 6 0) }

/-! ## Controller (controller + ops files)

The controller owns a `Device` and the auto-tickle quit channel
`quitCh chan struct{}`.  A Go channel reference is nil, or points to a
channel that is open or already closed; `close` on a nil channel or on
an already-closed channel panics at runtime. -/

inductive ChanRef where
  | nil : ChanRef
  | opened : ChanRef
  | closed : ChanRef
deriving DecidableEq, Repr

structure Controller where
  dev : Device
  quitCh : ChanRef

/-- `Controller.isPosRangeValid`:
`(start <= end && end < mp) || (start < mp && end == 0)` with
`mp = getMaxPattern(c.dev.gen)`. -/
def Controller.isPosRangeValid (c : Controller) (start stop : Nat) : Bool :=
  let mp := getMaxPattern c.dev.gen
  (decide (start ≤ stop) && decide (stop < mp)) || (decide (start < mp) && decide (stop = 0))

/-- `Controller.PlayState` — the buffer it hands to the transport:
gamma-corrects the RGB extracted from `st.Color`, then builds the
`FadeToRGB` buffer. -/
def Controller.playStateBuf (st : LightState) : List Nat :=
  let rgb := convColorToRGB st.color
  let d := degammaRGB rgb.1 rgb.2.1 rgb.2.2
  fadeToRGBBuf d.1 d.2.1 d.2.2 st.fadeTimeMs st.led

/-- `Controller.PlayColor` — gamma-corrects the RGB extracted from the
color, then builds the `SetRGBNow` buffer addressed to `LEDAll`. -/
def Controller.playColorBuf (cl : GoColor) : List Nat :=
  let rgb := convColorToRGB cl
  let d := degammaRGB rgb.1 rgb.2.1 rgb.2.2
  setRGBNowBuf d.1 d.2.1 d.2.2 LEDAll

/-- `Controller.PlayRGB` — passes the caller's `r, g, b` bytes straight
to `SetRGBNow` (the source applies no gamma correction on this path). -/
def Controller.playRGBBuf (r g b : Nat) : List Nat :=
  setRGBNowBuf r g b LEDAll

/-- `Controller.PlayHSB` — gamma-corrects the result of
`convHSBToRGB(hue, saturation, brightness)` and builds the `SetRGBNow`
buffer.  The HSB→RGB conversion itself is floating-point and is
abstracted here by its 8-bit result triple `(r, g, b)`. -/
def Controller.playHSBBufFromRGB (r g b : Nat) : List Nat :=
  let d := degammaRGB r g b
  setRGBNowBuf d.1 d.2.1 d.2.2 LEDAll

/-- `Controller.ReadColor` — wraps the raw `ReadRGB` response bytes into
a `color.RGBA`; no gamma on the read path. -/
def Controller.readColorOfResp (resp : List Nat) : GoColor :=
  let rgb := readRGBParse resp
  convRGBToColor rgb.1 rgb.2.1 rgb.2.2

/-- One pattern line as written by `LoadPattern`: `convLightState`
followed by `degammaRGB` on the R, G, B fields. -/
def loadLine (st : LightState) : DeviceLightState :=
  let d := convLightState st
  let g := degammaRGB d.R d.G d.B
  { d with R := g.1, G := g.2.1, B := g.2.2 }

/-- The `LoadPattern` write loop: starting at `pos`, writes one line per
state at consecutive positions; stops after the last state
(`pc >= sc` break) or when `pos` passes `posEnd`.  Returns the sequence
of `(position, line)` writes issued to the device. -/
def loadLoop : Nat → Nat → List LightState → List (Nat × DeviceLightState)
  | _, _, [] => []
  | pos, posEnd, st :: rest =>
    if posEnd < pos then []
    else (pos, loadLine st) :: loadLoop (pos + 1) posEnd rest

/-- `Controller.LoadPattern`: no-op on an empty state list, validates
the position range, resolves the `posEnd == 0` sentinel to
`patt_max - 1`, then runs the write loop. -/
def Controller.loadPatternWrites (c : Controller) (posStart posEnd : Nat)
    (states : List LightState) : Except String (List (Nat × DeviceLightState)) :=
  if states.length = 0 then .ok []
  else if ¬ c.isPosRangeValid posStart posEnd then .error "b1: invalid pattern position"
  else
    let posEnd := if posEnd = 0 then getMaxPattern c.dev.gen - 1 else posEnd
    .ok (loadLoop posStart posEnd states)

/-- `Controller.PlayPattern`: validates the range, rejects
`RepeatTimes > maxRepeat`, resolves the `EndPosition == 0` sentinel,
loads the states, then issues the play-loop command.  Returns the
pattern-line writes and the final play-loop buffer. -/
def Controller.playPatternPlan (c : Controller) (pt : Pattern) :
    Except String (List (Nat × DeviceLightState) × List Nat) :=
  if ¬ c.isPosRangeValid pt.StartPosition pt.EndPosition then
    .error "b1: invalid pattern position"
  else if pt.RepeatTimes > maxRepeat then
    .error "b1: invalid pattern repeat times"
  else
    let endPos := if pt.EndPosition = 0 then getMaxPattern c.dev.gen - 1 else pt.EndPosition
    match c.loadPatternWrites pt.StartPosition endPos pt.States with
    | .error e => .error e
    | .ok ws =>
      match Device.playLoopBuf c.dev.gen true pt.StartPosition endPos pt.RepeatTimes with
      | .error e => .error e
      | .ok buf => .ok (ws, buf)

/-- `Controller.StartAutoTickle`: validates the range; if `quitCh` is
non-nil it is closed first (`close` on an already-closed channel panics
— Go never resets `quitCh` to nil after a stop), then a fresh open
channel is installed and the watchdog task started. -/
def Controller.startAutoTickle (c : Controller) (posStart posEnd : Nat) (keepOld : Bool) :
    Outcome Controller :=
  if ¬ c.isPosRangeValid posStart posEnd then .err "b1: invalid pattern position"
  else
    match c.quitCh with
    | .closed => .panic
    | _ => .ok { c with quitCh := .opened }

/-- `Controller.StopAutoTickle`: `if c.quitCh != nil { close(c.quitCh) }`.
The reference is never reset to nil, so a second stop finds the closed
channel and `close` panics. -/
def Controller.stopAutoTickle (c : Controller) : Outcome Controller :=
  match c.quitCh with
  | .nil => .ok c
  | .opened => .ok { c with quitCh := .closed }
  | .closed => .panic

/-! ## Concrete demonstration values -/

/-- A transport whose operations always succeed (echoing reads). -/
def demoTransport : Transport :=
  ⟨fun _ => .ok (), fun b => .ok b⟩

/-- A transport whose writes always fail, as the flash-save command's
USB timing quirk guarantees. -/
def failTransport : Transport :=
  ⟨fun _ => .error "hid: usb transfer timed out", fun _ => .error "hid: usb transfer timed out"⟩

/-- An open mk2 device over the always-succeeding transport. -/
def demoDevice : Device :=
  { pn := "blink(1) mk2", gen := 2, sn := "2A001122", dev := some demoTransport }

/-- A device whose response buffer carries firmware version digits
'3' and '0' at bytes 3 and 4. -/
def versionDevice : Device :=
  { pn := "blink(1) mk3", gen := 3, sn := "3A001122",
    dev := some ⟨fun _ => .ok (), fun _ => .ok [1, 'v'.toNat, 0, '3'.toNat, '0'.toNat, 0, 0, 0, 0]⟩ }

/-- A freshly created controller: `quitCh` is the nil channel. -/
def demoController : Controller :=
  { dev := demoDevice, quitCh := .nil }

/-- The controller right after `StartAutoTickle` succeeded. -/
def startedController : Controller :=
  { dev := demoDevice, quitCh := .opened }

/-- The controller right after the watchdog was stopped: `quitCh` still
references the (now closed) channel. -/
def stoppedController : Controller :=
  { dev := demoDevice, quitCh := .closed }

/-- A sample light state used for concrete instantiations. -/
def demoState : LightState :=
  { color := convRGBToColor 200 100 50, led := LEDAll, fadeTimeMs := 1000 }

/-- `Device.PlayLoop` over the transport: validation + encode + write. -/
def Device.playLoop (b1 : Device) (play : Bool) (posStart posEnd times : Nat) : Outcome Unit :=
  match Device.playLoopBuf b1.gen play posStart posEnd times with
  | .error e => .err e
  | .ok buf => b1.write buf

/-- `Device.SetTickleMode` over the transport: validation + encode +
write. -/
def Device.setTickleMode (b1 : Device) (play keep : Bool) (posStart posEnd timeoutMsec : Nat) :
    Outcome Unit :=
  match Device.setTickleModeBuf b1.gen play keep posStart posEnd timeoutMsec with
  | .error e => .err e
  | .ok buf => b1.write buf

/-! ## Helper lemmas -/

theorem and_255_eq_mod (x : Nat) : x &&& 255 = x % 256 := by
  have h := Nat.and_pow_two_sub_one_eq_mod x 8
  norm_num at h
  exact h

theorem getMaxPattern_le (gen : Nat) : getMaxPattern gen ≤ 32 := by
  unfold getMaxPattern maxPattern maxPattern2
  split <;> omega

theorem getMaxPattern_ge (gen : Nat) : 12 ≤ getMaxPattern gen := by
  unfold getMaxPattern maxPattern maxPattern2
  split <;> omega

theorem isPosRangeValid_iff (c : Controller) (s e : Nat) :
    c.isPosRangeValid s e = true ↔
      ((s ≤ e ∧ e < getMaxPattern c.dev.gen) ∨ (s < getMaxPattern c.dev.gen ∧ e = 0)) := by
  unfold Controller.isPosRangeValid
  simp

theorem loadLoop_mem {w : Nat × DeviceLightState} :
    ∀ (pos posEnd : Nat) (sts : List LightState), w ∈ loadLoop pos posEnd sts →
      ∃ st ∈ sts, w.2 = loadLine st := by
  intro pos posEnd sts
  induction sts generalizing pos with
  | nil => simp [loadLoop]
  | cons st rest ih =>
    simp only [loadLoop]
    split
    · simp
    · intro hw
      rcases List.mem_cons.mp hw with h | h
      · exact ⟨st, List.mem_cons_self st rest, by rw [h]⟩
      · obtain ⟨st2, hmem, heq⟩ := ih (pos + 1) h
        exact ⟨st2, List.mem_cons_of_mem _ hmem, heq⟩

theorem playLoopBuf_ok (gen : Nat) (play : Bool) (posStart posEnd times : Nat)
    (hs : posStart < getMaxPattern gen) (he : posEnd < getMaxPattern gen) :
    Device.playLoopBuf gen play posStart posEnd times =
      .ok [reportID, 'p'.toNat, convBoolToByte play, posStart,
        (if posEnd = 0 then getMaxPattern gen - 1 else posEnd), (times &&& 0xff) % 256, 0, 0, 0] := by
  have hmp := getMaxPattern_le gen
  have hchk1 : Device.checkPatternPos gen posStart = .ok () := by
    unfold Device.checkPatternPos
    rw [if_neg (by omega)]
  have hchk2 : Device.checkPatternPos gen posEnd = .ok () := by
    unfold Device.checkPatternPos
    rw [if_neg (by omega)]
  have e1 : posStart % 256 = posStart := Nat.mod_eq_of_lt (by omega)
  have e2 : (if posEnd = 0 then getMaxPattern gen - 1 else posEnd) % 256
      = (if posEnd = 0 then getMaxPattern gen - 1 else posEnd) := by
    split <;> exact Nat.mod_eq_of_lt (by omega)
  unfold Device.playLoopBuf
  rw [hchk1, hchk2]
  show Except.ok _ = _
  rw [e1, e2]

theorem setTickleModeBuf_ok (gen : Nat) (play keep : Bool) (posStart posEnd timeoutMsec : Nat)
    (hs : posStart < getMaxPattern gen) (he : posEnd < getMaxPattern gen) :
    Device.setTickleModeBuf gen play keep posStart posEnd timeoutMsec =
      .ok [reportID, 'D'.toNat, convBoolToByte play, (convDurMsToFadeMs timeoutMsec).1,
        (convDurMsToFadeMs timeoutMsec).2, convBoolToByte keep, posStart,
        (if posEnd = 0 then getMaxPattern gen else posEnd + 1), 0] := by
  have hmp := getMaxPattern_le gen
  have hchk1 : Device.checkPatternPos gen posStart = .ok () := by
    unfold Device.checkPatternPos
    rw [if_neg (by omega)]
  have hchk2 : Device.checkPatternPos gen posEnd = .ok () := by
    unfold Device.checkPatternPos
    rw [if_neg (by omega)]
  have e1 : posStart % 256 = posStart := Nat.mod_eq_of_lt (by omega)
  have e3 : (if posEnd = 0 then getMaxPattern gen else posEnd + 1) % 256
      = (if posEnd = 0 then getMaxPattern gen else posEnd + 1) := by
    split <;> exact Nat.mod_eq_of_lt (by omega)
  unfold Device.setTickleModeBuf
  rw [hchk1, hchk2]
  show Except.ok _ = _
  rw [e1, e3]

/-! ## Claim theorems -/

/-- C3: for every `ms` in `[0, 655350]`,
`convFadeMsToDurMs (convDurMsToFadeMs ms) = ms / 10 * 10` (truncation to
the nearest lower multiple of 10 ms); for `ms > 655350` the encoder
clamps: `convDurMsToFadeMs ms = convDurMsToFadeMs 655350`. -/
theorem c3_fade_encoding (ms : Nat) :
    (ms ≤ 655350 →
      convFadeMsToDurMs (convDurMsToFadeMs ms).1 (convDurMsToFadeMs ms).2 = ms / 10 * 10)
  ∧ (655350 < ms → convDurMsToFadeMs ms = convDurMsToFadeMs 655350) := by
  constructor
  · intro h
    have hclamp : ¬ (ms > maxFadeMsec) := by unfold maxFadeMsec; omega
    unfold convDurMsToFadeMs convFadeMsToDurMs
    simp only [if_neg hclamp]
    have h1 : (ms / 10) >>> 8 = ms / 10 / 2 ^ 8 := Nat.shiftRight_eq_div_pow (ms / 10) 8
    have h2 : ms / 10 &&& 0xff = ms / 10 % 256 := and_255_eq_mod (ms / 10)
    have h28 : (2 : Nat) ^ 8 = 256 := by norm_num
    have h3 : ms / 10 / 2 ^ 8 % 256 = ms / 10 / 2 ^ 8 := by
      rw [h28]; exact Nat.mod_eq_of_lt (by omega)
    have h4 : ms / 10 % 256 % 256 = ms / 10 % 256 := Nat.mod_mod_of_dvd _ dvd_rfl
    rw [h1, h2, h3, h4]
    have h5 : (ms / 10 / 2 ^ 8) <<< 8 = 2 ^ 8 * (ms / 10 / 2 ^ 8) := by
      rw [Nat.shiftLeft_eq]; ring
    have h6 : 2 ^ 8 * (ms / 10 / 2 ^ 8) ||| ms / 10 % 256
        = 2 ^ 8 * (ms / 10 / 2 ^ 8) + ms / 10 % 256 :=
      (Nat.mul_add_lt_is_or (by rw [h28]; omega) _).symm
    rw [h5, h6, h28]
    omega
  · intro h
    have h1 : ms > maxFadeMsec := by unfold maxFadeMsec; omega
    have h2 : ¬ ((655350 : Nat) > maxFadeMsec) := by unfold maxFadeMsec; omega
    unfold convDurMsToFadeMs
    rw [if_pos h1, if_neg h2]
    unfold maxFadeMsec
    norm_num

/-- Witness for C3: concrete round-trip at 12345 ms and concrete clamp
at 700000 ms. -/
theorem c3_fade_encoding_witness :
    convFadeMsToDurMs (convDurMsToFadeMs 12345).1 (convDurMsToFadeMs 12345).2 = 12340
  ∧ convDurMsToFadeMs 700000 = convDurMsToFadeMs 655350 := by
  constructor
  · have h := (c3_fade_encoding 12345).1 (by norm_num)
    norm_num at h
    exact h
  · exact (c3_fade_encoding 700000).2 (by norm_num)

/-- C7: with both positions validated in range, `PlayLoop` resolves the
zero-end sentinel to `capacity - 1` and otherwise encodes `posEnd`
unchanged (inclusive end), while `SetTickleMode` resolves zero to
`capacity` and otherwise encodes `posEnd + 1` (exclusive end). -/
theorem c7_end_sentinel_asymmetry (gen : Nat) (play keep : Bool)
    (posStart posEnd times timeoutMsec : Nat)
    (hs : posStart < getMaxPattern gen) (he : posEnd < getMaxPattern gen) :
    Device.playLoopBuf gen play posStart posEnd times =
      .ok [reportID, 'p'.toNat, convBoolToByte play, posStart,
        (if posEnd = 0 then getMaxPattern gen - 1 else posEnd), (times &&& 0xff) % 256, 0, 0, 0]
  ∧ Device.setTickleModeBuf gen play keep posStart posEnd timeoutMsec =
      .ok [reportID, 'D'.toNat, convBoolToByte play, (convDurMsToFadeMs timeoutMsec).1,
        (convDurMsToFadeMs timeoutMsec).2, convBoolToByte keep, posStart,
        (if posEnd = 0 then getMaxPattern gen else posEnd + 1), 0] :=
  ⟨playLoopBuf_ok gen play posStart posEnd times hs he,
   setTickleModeBuf_ok gen play keep posStart posEnd timeoutMsec hs he⟩

/-- Witness for C7: concrete instantiation on a gen-1 device with the
zero-end sentinel. -/
theorem c7_end_sentinel_asymmetry_witness :
    ((3 : Nat) < getMaxPattern 1 ∧ (0 : Nat) < getMaxPattern 1)
  ∧ (Device.playLoopBuf 1 true 3 0 7 =
      .ok [reportID, 'p'.toNat, convBoolToByte true, 3,
        (if (0 : Nat) = 0 then getMaxPattern 1 - 1 else 0), (7 &&& 0xff) % 256, 0, 0, 0]
    ∧ Device.setTickleModeBuf 1 true false 3 0 2000 =
      .ok [reportID, 'D'.toNat, convBoolToByte true, (convDurMsToFadeMs 2000).1,
        (convDurMsToFadeMs 2000).2, convBoolToByte false, 3,
        (if (0 : Nat) = 0 then getMaxPattern 1 else 0 + 1), 0]) :=
  ⟨by constructor <;> decide,
   c7_end_sentinel_asymmetry 1 true false 3 0 7 2000 (by decide) (by decide)⟩

/-- C8: `SavePattern` returns `nil` for every outcome of the underlying
transport write — the write's error is discarded. -/
theorem c8_savePattern_swallows_error (pn : String) (gen : Nat) (sn : String) (t : Transport) :
    Device.savePattern { pn := pn, gen := gen, sn := sn, dev := some t } = Outcome.ok () := by
  unfold Device.savePattern Device.write
  cases h : t.writeFeature savePatternBuf <;> simp [h]

/-- Witness for C8: the guaranteed USB-timeout transport error is
reported as success. -/
theorem c8_savePattern_swallows_error_witness :
    Device.savePattern
      { pn := "blink(1) mk2", gen := 2, sn := "2A001122",
        dev := some failTransport } = Outcome.ok () :=
  c8_savePattern_swallows_error "blink(1) mk2" 2 "2A001122" failTransport

/-- C9: `isPosRangeValid start end` is exactly
`(start ≤ end ∧ end < capacity) ∨ (start < capacity ∧ end = 0)` with
`capacity = getMaxPattern gen`; in particular it accepts `(0,0)`,
`(0, capacity-1)`, `(capacity-1, 0)` and rejects `(0, capacity)` and
`(5,3)` (capacity is always greater than 3). -/
theorem c9_isPosRangeValid_spec (c : Controller) (s e : Nat) :
    (c.isPosRangeValid s e = true ↔
      ((s ≤ e ∧ e < getMaxPattern c.dev.gen) ∨ (s < getMaxPattern c.dev.gen ∧ e = 0)))
  ∧ c.isPosRangeValid 0 0 = true
  ∧ c.isPosRangeValid 0 (getMaxPattern c.dev.gen - 1) = true
  ∧ c.isPosRangeValid (getMaxPattern c.dev.gen - 1) 0 = true
  ∧ c.isPosRangeValid 0 (getMaxPattern c.dev.gen) = false
  ∧ (3 < getMaxPattern c.dev.gen ∧ c.isPosRangeValid 5 3 = false) := by
  have hmp := getMaxPattern_ge c.dev.gen
  have h0 : 0 < getMaxPattern c.dev.gen := by omega
  refine ⟨isPosRangeValid_iff c s e, ?_, ?_, ?_, ?_, by omega, ?_⟩
  · exact (isPosRangeValid_iff c 0 0).mpr (Or.inr ⟨h0, rfl⟩)
  · exact (isPosRangeValid_iff c 0 _).mpr (Or.inl ⟨Nat.zero_le _, by omega⟩)
  · exact (isPosRangeValid_iff c _ 0).mpr (Or.inr ⟨by omega, rfl⟩)
  · have hiff := isPosRangeValid_iff c 0 (getMaxPattern c.dev.gen)
    cases hb : c.isPosRangeValid 0 (getMaxPattern c.dev.gen)
    · rfl
    · exact absurd (hiff.mp hb) (by omega)
  · have hiff := isPosRangeValid_iff c 5 3
    cases hb : c.isPosRangeValid 5 3
    · rfl
    · exact absurd (hiff.mp hb) (by omega)

/-- Witness for C9: concrete instantiation on the demo mk2 controller. -/
theorem c9_isPosRangeValid_spec_witness :
    (demoController.isPosRangeValid 4 9 = true ↔
      ((4 ≤ 9 ∧ 9 < getMaxPattern demoController.dev.gen)
        ∨ (4 < getMaxPattern demoController.dev.gen ∧ 9 = 0)))
  ∧ demoController.isPosRangeValid 0 0 = true
  ∧ demoController.isPosRangeValid 0 (getMaxPattern demoController.dev.gen - 1) = true
  ∧ demoController.isPosRangeValid (getMaxPattern demoController.dev.gen - 1) 0 = true
  ∧ demoController.isPosRangeValid 0 (getMaxPattern demoController.dev.gen) = false
  ∧ (3 < getMaxPattern demoController.dev.gen ∧ demoController.isPosRangeValid 5 3 = false) :=
  c9_isPosRangeValid_spec demoController 4 9

/-- C10: `LEDIndex.ToByte` returns `l` itself for `l ∈ {0, 1, 2}` and
`0` (`LEDAll`) for every other value, so the LED-selector byte is always
one of 0, 1, 2.  (`LEDIndex` is a Go `byte`, modelled as `Nat`.) -/
theorem c10_led_toByte (l : Nat) :
    LEDIndex.ToByte l = (if l ≤ 2 then l else 0)
  ∧ (LEDIndex.ToByte l = 0 ∨ LEDIndex.ToByte l = 1 ∨ LEDIndex.ToByte l = 2) := by
  unfold LEDIndex.ToByte LEDAll LED2
  by_cases h : l ≤ 2
  · rw [if_neg (show ¬ (l < 0 ∨ l > 2) by omega), if_pos h]
    exact ⟨rfl, by omega⟩
  · rw [if_pos (show l < 0 ∨ l > 2 by omega), if_neg h]
    exact ⟨rfl, Or.inl rfl⟩

/-- Witness for C10: concrete out-of-range LED index 7 collapses to 0. -/
theorem c10_led_toByte_witness :
    LEDIndex.ToByte 7 = (if (7 : Nat) ≤ 2 then 7 else 0)
  ∧ (LEDIndex.ToByte 7 = 0 ∨ LEDIndex.ToByte 7 = 1 ∨ LEDIndex.ToByte 7 = 2) :=
  c10_led_toByte 7

/-- C1 (code evaluation at the failing input): after `Close` every
transport primitive — `write`, `doubleWrite`, `read`, `delayRead` — and
the public commands built on them dereference the nil `hid.Device`
handle and panic; none of them returns an error. -/
theorem c1_ops_after_close_panic :
    (∀ (b1 : Device) (buf : List Nat), (b1.close).write buf = Outcome.panic)
  ∧ (∀ (b1 : Device) (buf1 buf2 : List Nat), (b1.close).doubleWrite buf1 buf2 = Outcome.panic)
  ∧ (∀ (b1 : Device) (buf : List Nat), (b1.close).read buf = Outcome.panic)
  ∧ (∀ (b1 : Device) (buf : List Nat) (d : Nat), (b1.close).delayRead buf d = Outcome.panic)
  ∧ (∀ (b1 : Device) (r g b ms led : Nat), (b1.close).fadeToRGB r g b ms led = Outcome.panic)
  ∧ (∀ (b1 : Device), (b1.close).getVersion = Outcome.panic)
  ∧ (∀ (b1 : Device), (b1.close).savePattern = Outcome.panic) :=
  ⟨fun _ _ => rfl, fun _ _ _ => rfl, fun _ _ => rfl, fun _ _ _ => rfl,
   fun _ _ _ _ _ _ => rfl, fun _ => rfl, fun _ => rfl⟩

/-- C2 (code evaluation at the failing sequence): on a fresh controller
`StopAutoTickle` is a no-op, and after `StartAutoTickle` a first
`StopAutoTickle` closes the quit channel; but the reference is never
reset to nil, so a second `StopAutoTickle` — issued while the watchdog
is Idle — closes an already-closed channel and panics. -/
theorem c2_stop_while_idle_panics :
    demoController.stopAutoTickle = Outcome.ok demoController
  ∧ demoController.startAutoTickle 0 0 false = Outcome.ok startedController
  ∧ startedController.stopAutoTickle = Outcome.ok stoppedController
  ∧ stoppedController.stopAutoTickle = Outcome.panic :=
  ⟨rfl, rfl, rfl, rfl⟩

/-- C4 (code evaluation at the failing input): for a response carrying
ASCII digits '3' and '0' (firmware version 3.0) the multiplication
`(buf[3]-'0')*100` is performed on the Go `byte` type and wraps modulo
256, so `GetVersion` returns 44 instead of `3*100 + 0 = 300`.  For
major digits up to 2 no wrap occurs. -/
theorem c4_version_byte_overflow :
    Device.getVersion versionDevice = Outcome.ok 44
  ∧ getVersionParse ('3'.toNat) ('0'.toNat) = 44
  ∧ getVersionParse ('3'.toNat) ('0'.toNat) ≠ 3 * 100 + 0
  ∧ getVersionParse ('2'.toNat) ('7'.toNat) = 2 * 100 + 7 :=
  ⟨rfl, rfl, by decide, rfl⟩

/-- C5 counterexample: `Controller.PlayRGB` places the caller's raw
byte 128 in the command buffer; the gamma table would have produced 55,
so the claim that every color write path applies the gamma lookup is
false for `PlayRGB`. -/
theorem c5_playRGB_skips_gamma :
    (Controller.playRGBBuf 128 128 128).getD 2 0 = 128
  ∧ degamma 128 = 55
  ∧ (128 : Nat) ≠ 55 :=
  ⟨rfl, rfl, by decide⟩

/-- C5 amended: the gamma lookup is applied to the RGB values placed in
the buffers of `PlayState`, `PlayColor`, `PlayHSB` and of every pattern
line written by `LoadPattern`, while `PlayRGB` passes its bytes through
unmodified; the read paths (`ReadRGB`, `ReadPatternLine`, `ReadColor`)
return the response bytes without gamma correction.  (`PlayHSB`'s
floating-point HSB→RGB conversion is abstracted by its result triple.) -/
theorem c5_gamma_on_writes_not_reads :
    (∀ st : LightState, Controller.playStateBuf st =
      fadeToRGBBuf (degamma (convColorToRGB st.color).1) (degamma (convColorToRGB st.color).2.1)
        (degamma (convColorToRGB st.color).2.2) st.fadeTimeMs st.led)
  ∧ (∀ cl : GoColor, Controller.playColorBuf cl =
      setRGBNowBuf (degamma (convColorToRGB cl).1) (degamma (convColorToRGB cl).2.1)
        (degamma (convColorToRGB cl).2.2) LEDAll)
  ∧ (∀ r g b : Nat, Controller.playHSBBufFromRGB r g b =
      setRGBNowBuf (degamma r) (degamma g) (degamma b) LEDAll)
  ∧ (∀ r g b : Nat, Controller.playRGBBuf r g b = setRGBNowBuf r g b LEDAll)
  ∧ (∀ (posStart posEnd : Nat) (sts : List LightState),
      ∀ w ∈ loadLoop posStart posEnd sts, ∃ st ∈ sts,
        w.2.R = degamma (convColorToRGB st.color).1
      ∧ w.2.G = degamma (convColorToRGB st.color).2.1
      ∧ w.2.B = degamma (convColorToRGB st.color).2.2)
  ∧ (∀ resp : List Nat,
      readRGBParse resp = (resp.getD 2 0, resp.getD 3 0, resp.getD 4 0)
      ∧ (readPatternLineParse resp).R = resp.getD 2 0
      ∧ (readPatternLineParse resp).G = resp.getD 3 0
      ∧ (readPatternLineParse resp).B = resp.getD 4 0
      ∧ Controller.readColorOfResp resp =
          convRGBToColor (resp.getD 2 0) (resp.getD 3 0) (resp.getD 4 0)) := by
  refine ⟨fun _ => rfl, fun _ => rfl, fun _ _ _ => rfl, fun _ _ _ => rfl, ?_,
    fun _ => ⟨rfl, rfl, rfl, rfl, rfl⟩⟩
  intro posStart posEnd sts w hw
  obtain ⟨st, hmem, heq⟩ := loadLoop_mem posStart posEnd sts hw
  exact ⟨st, hmem, by rw [heq]; rfl, by rw [heq]; rfl, by rw [heq]; rfl⟩

/-- Witness for C5 (amended): a concrete pattern line written by the
load loop carries the gamma-corrected channels of its source state. -/
theorem c5_gamma_on_writes_not_reads_witness :
    ∃ st ∈ [demoState],
      ((0, loadLine demoState) : Nat × DeviceLightState).2.R
        = degamma (convColorToRGB st.color).1
    ∧ ((0, loadLine demoState) : Nat × DeviceLightState).2.G
        = degamma (convColorToRGB st.color).2.1
    ∧ ((0, loadLine demoState) : Nat × DeviceLightState).2.B
        = degamma (convColorToRGB st.color).2.2 :=
  c5_gamma_on_writes_not_reads.2.2.2.2.1 0 5 [demoState] (0, loadLine demoState)
    (by simp [loadLoop])

/-- C6 counterexample: `Device.PlayLoop` with repeat count 300 on an
mk2 device is not rejected — it encodes and sends a buffer whose
repeat byte is the truncated value `300 & 0xff = 44`. -/
theorem c6_playLoop_truncates :
    Device.playLoopBuf 2 true 0 0 300 = .ok [1, 112, 1, 0, 31, 44, 0, 0, 0]
  ∧ demoDevice.playLoop true 0 0 300 = Outcome.ok () :=
  ⟨rfl, rfl⟩

/-- C6 amended: the repeat-count bound is enforced one layer up:
`Controller.PlayPattern` returns a validation error before any
encoding or I/O whenever `RepeatTimes > 255`, while the low-level
`Device.PlayLoop` never validates the repeat count and encodes only its
low 8 bits. -/
theorem c6_repeat_validation :
    (∀ (c : Controller) (pt : Pattern), 255 < pt.RepeatTimes →
      c.playPatternPlan pt = .error "b1: invalid pattern position"
      ∨ c.playPatternPlan pt = .error "b1: invalid pattern repeat times")
  ∧ (∀ (gen : Nat) (play : Bool) (s e t : Nat),
      s < getMaxPattern gen → e < getMaxPattern gen →
      ∃ buf, Device.playLoopBuf gen play s e t = .ok buf ∧ buf.getD 5 0 = t % 256) := by
  constructor
  · intro c pt hrep
    unfold Controller.playPatternPlan
    by_cases hv : c.isPosRangeValid pt.StartPosition pt.EndPosition
    · right
      rw [if_neg (by simp [hv]), if_pos (by unfold maxRepeat; omega)]
    · left
      rw [if_pos (by simp [hv])]
  · intro gen play s e t hs he
    have h := playLoopBuf_ok gen play s e t hs he
    refine ⟨_, h, ?_⟩
    show (t &&& 0xff) % 256 = t % 256
    rw [and_255_eq_mod, Nat.mod_mod_of_dvd _ dvd_rfl]

/-- Witness for C6 (amended): repeat count 300 is rejected by the
controller, while the device-level encoder truncates it to 44. -/
theorem c6_repeat_validation_witness :
    ((255 : Nat) < 300)
  ∧ (demoController.playPatternPlan ⟨0, 0, 300, []⟩ = .error "b1: invalid pattern position"
     ∨ demoController.playPatternPlan ⟨0, 0, 300, []⟩ = .error "b1: invalid pattern repeat times")
  ∧ (∃ buf, Device.playLoopBuf 2 true 0 0 300 = .ok buf ∧ buf.getD 5 0 = 300 % 256) :=
  ⟨by decide,
   c6_repeat_validation.1 demoController ⟨0, 0, 300, []⟩ (by decide),
   c6_repeat_validation.2 2 true 0 0 300 (by decide) (by decide)⟩

end Blink1
